import Mathlib

/-!
Verification of the ChargeTunis backend core (src/main.py, src/schemas.py).

The algorithmic core is the Luhn checksum validator `luhn_check`, its use as
the gate in `confirm_payment`, and the per-request availability computation in
`list_stations`.  Each Python function is embedded shallowly: strings are Lean
`String`s, Python ints are `Nat`/`Int`, and exceptions are modelled with
`Option` (`none` = a raised `ValueError` propagating out).

Python's `str.isdigit` is strictly broader than `int`'s domain: characters
with Unicode property `Numeric_Type=Digit` that are not decimal digits — the
superscript and subscript digits such as '²' — satisfy `isdigit` but make
`int(d)` raise `ValueError`.  The comprehension
`[int(d) for d in card_number if d.isdigit()]` therefore crashes on such
characters.  The embedding keeps two layers: `luhn_check` is the total
function obtained when every retained character is a decimal digit (the ASCII
model used for concrete decimal inputs), and `luhn_check_py` is the faithful
fallible pipeline with the `isdigit` filter and the raising conversion.
-/

/-- The digit extraction of `luhn_check`:
`digits = [int(d) for d in card_number if d.isdigit()]`. -/
def digitsOf (card_number : String) : List Nat :=
  (card_number.data.filter Char.isDigit).map (fun c => c.toNat - Char.toNat '0')

/-- The in-loop transformation applied to a digit at a doubling position:
`d *= 2; if d > 9: d -= 9`. -/
def luhnDouble (d : Nat) : Nat :=
  if d * 2 > 9 then d * 2 - 9 else d * 2

/-- Embedding of `luhn_check` from src/main.py.  The Python `for i, d in
enumerate(digits)` loop accumulating `checksum` becomes a `foldl` over
`digits.enum`. -/
def luhn_check (card_number : String) : Bool :=
  let digits := digitsOf card_number
  if digits.length < 12 then
    false
  else
    let parity := digits.length % 2
    let checksum := digits.enum.foldl
      (fun acc id => acc + (if id.1 % 2 = parity then luhnDouble id.2 else id.2)) 0
    checksum % 10 == 0

/-- The spec-side Luhn sum, written from the specification's words rather than
from the code: iterate digits from the most significant (head first), double
the digits at the position whose index parity equals `parity` (the parity of
the total digit count), subtract 9 from doubled results above 9, and sum all
digits. -/
def specLuhnSum (parity : Nat) : Nat → List Nat → Nat
  | _, [] => 0
  | i, d :: rest =>
      (if i % 2 = parity then (if d * 2 > 9 then d * 2 - 9 else d * 2) else d)
        + specLuhnSum parity (i + 1) rest

/-- Removal of the non-digit characters of a string, as performed implicitly
by the comprehension filter in `luhn_check`. -/
def stripNonDigits (s : String) : String :=
  String.mk (s.data.filter Char.isDigit)

/-- Python's `str.isdigit` on a single character: true for decimal digits and
also for characters with `Numeric_Type=Digit` that `int` cannot convert.
Modelled on the Latin repertoire: the ASCII digits plus the superscript
digits ¹ ² ³ (U+00B9, U+00B2, U+00B3) and ⁰ ⁴–⁹ (U+2070, U+2074–U+2079) and
the subscript digits ₀–₉ (U+2080–U+2089), all of which Python's `isdigit`
accepts while `int` raises `ValueError` on them.  (Decimal digits of other
scripts, which both `isdigit` and `int` accept, are outside the modelled
repertoire.) -/
def pyIsdigit (c : Char) : Bool :=
  c.isDigit ||
    ['¹', '²', '³', '⁰', '⁴', '⁵', '⁶', '⁷', '⁸', '⁹',
      '₀', '₁', '₂', '₃', '₄', '₅', '₆', '₇', '₈', '₉'].contains c

/-- Python's `int(d)` on a one-character string: succeeds exactly on the
decimal digits, raising `ValueError` (here: `none`) on everything else —
including characters such as '²' that `str.isdigit` accepts but `int`
rejects. -/
def pyInt (c : Char) : Option Nat :=
  if c.isDigit then some (c.toNat - Char.toNat '0') else none

/-- Faithful embedding of `luhn_check` from src/main.py with the exception
path kept: `digits = [int(d) for d in card_number if d.isdigit()]` retains
every `isdigit` character and converts each with `int`, which raises (`none`)
on isdigit-true non-decimal characters such as '²'. -/
def luhn_check_py (card_number : String) : Option Bool := do
  let digits ← (card_number.data.filter pyIsdigit).mapM pyInt
  if digits.length < 12 then
    return false
  else
    let parity := digits.length % 2
    let checksum := digits.enum.foldl
      (fun acc id => acc + (if id.1 % 2 = parity then luhnDouble id.2 else id.2)) 0
    return (checksum % 10 == 0)

/-- Embedding of the `PaymentConfirmIn` pydantic model from src/schemas.py. -/
structure PaymentConfirmIn where
  client_secret : String
  card_number : String
  exp_month : Int
  exp_year : Int
  cvc : String

/-- Embedding of the `PaymentResult` pydantic model from src/schemas.py. -/
structure PaymentResult where
  status : String
  transaction_id : Option String := none
  message : Option String := none

/-- Embedding of `confirm_payment` from src/main.py.  The nondeterministic
`uuid4().hex` is passed in as the parameter `uuidHex`; the handler takes the
first 12 hex characters and prefixes them with `txn_`. -/
def confirm_payment (uuidHex : String) (payload : PaymentConfirmIn) : PaymentResult :=
  if ! luhn_check payload.card_number then
    { status := "failed", message := some "Invalid card number" }
  else
    { status := "succeeded"
      transaction_id := some ("txn_" ++ uuidHex.take 12)
      message := some "Payment confirmed" }

/-- Embedding of `confirm_payment` with the exception path of `luhn_check`
kept: the handler has no try/except, so a `ValueError` raised inside
`luhn_check` propagates out (`none`) and no `PaymentResult` is produced. -/
def confirm_payment_py (uuidHex : String) (payload : PaymentConfirmIn) :
    Option PaymentResult := do
  let ok ← luhn_check_py payload.card_number
  if ! ok then
    return { status := "failed", message := some "Invalid card number" }
  else
    return { status := "succeeded"
             transaction_id := some ("txn_" ++ uuidHex.take 12)
             message := some "Payment confirmed" }

/-- A sample payload with a Luhn-valid card number. -/
def samplePayloadValid : PaymentConfirmIn :=
  { client_secret := "pi_abc", card_number := "4242424242424242"
    exp_month := 12, exp_year := 2030, cvc := "123" }

/-- A sample payload with a Luhn-invalid card number. -/
def samplePayloadInvalid : PaymentConfirmIn :=
  { client_secret := "pi_abc", card_number := "4242424242424241"
    exp_month := 12, exp_year := 2030, cvc := "123" }

/-- A payload sharing `samplePayloadValid`'s card number but differing in all
other fields. -/
def samplePayloadValidAlt : PaymentConfirmIn :=
  { client_secret := "pi_zzz", card_number := "4242424242424242"
    exp_month := 1, exp_year := 2026, cvc := "999" }

/-- A payload whose card number is the superscript two, on which Python's
`isdigit` is true but `int` raises `ValueError`. -/
def samplePayloadSuperscript : PaymentConfirmIn :=
  { client_secret := "pi_abc", card_number := "²"
    exp_month := 12, exp_year := 2030, cvc := "123" }

/-- The per-station availability computation of `list_stations`:
`occupied = now % (capacity + 1); available = max(0, capacity - occupied)`.
Python integer arithmetic is embedded as `Int` so that the `max 0` guard is
meaningful. -/
def stationAvailable (capacity : Int) (nowSec : Nat) : Int :=
  let occupied : Int := (nowSec : Int) % (capacity + 1)
  max 0 (capacity - occupied)

/- Shared evaluation facts about the standard test card numbers. -/
theorem luhn_valid_4242 : luhn_check "4242424242424242" = true := by
  decide

theorem luhn_invalid_4241 : luhn_check "4242424242424241" = false := by
  decide

/- Bridge between the `foldl` over `enum` inside `luhn_check` and the
recursive spec-side sum. -/
theorem foldl_enumFrom_specLuhnSum (parity : Nat) :
    ∀ (l : List Nat) (i acc : Nat),
      (List.enumFrom i l).foldl
        (fun acc id => acc + (if id.1 % 2 = parity then luhnDouble id.2 else id.2)) acc
        = acc + specLuhnSum parity i l := by
  intro l
  induction l with
  | nil => intro i acc; simp [specLuhnSum]
  | cons d rest ih =>
      intro i acc
      simp only [List.enumFrom, List.foldl_cons, specLuhnSum]
      rw [ih]
      simp only [luhnDouble]
      omega

/- In the total model, with at least 12 digits retained, acceptance is
equivalent to the spec-worded Luhn sum being divisible by 10. -/
theorem luhn_check_iff_specLuhnSum (s : String) (h : 12 ≤ (digitsOf s).length) :
    luhn_check s = true ↔
      specLuhnSum ((digitsOf s).length % 2) 0 (digitsOf s) % 10 = 0 := by
  have hlt : ¬ (digitsOf s).length < 12 := Nat.not_lt.mpr h
  unfold luhn_check
  simp only [hlt, if_false]
  have he : (digitsOf s).enum = List.enumFrom 0 (digitsOf s) := rfl
  rw [he, foldl_enumFrom_specLuhnSum]
  simp

/- In the total model, fewer than 12 retained digits always yields false. -/
theorem luhn_check_short_false (s : String) (h : (digitsOf s).length < 12) :
    luhn_check s = false := by
  unfold luhn_check
  simp [h]

/- The total model is invariant under removal of non-decimal-digit
characters, and the dashed and plain test cards agree there. -/
theorem luhn_check_strip_invariant :
    (∀ s : String, luhn_check s = luhn_check (stripNonDigits s)) ∧
      luhn_check "4242-4242-4242-4242" = luhn_check "4242424242424242" := by
  refine ⟨fun s => ?_, by decide⟩
  have hd : digitsOf (stripNonDigits s) = digitsOf s := by
    unfold digitsOf stripNonDigits
    simp [List.filter_filter]
  unfold luhn_check
  rw [hd]

/- Over a list of digit characters, every `int(d)` conversion succeeds. -/
theorem mapM_pyInt_of_digits :
    ∀ l : List Char, (∀ c ∈ l, c.isDigit) →
      l.mapM pyInt = some (l.map (fun c => c.toNat - Char.toNat '0')) := by
  intro l
  induction l with
  | nil => intro _; rfl
  | cons c rest ih =>
      intro h
      have hc : c.isDigit := h c (List.mem_cons_self c rest)
      have hrest : ∀ d ∈ rest, d.isDigit := fun d hd => h d (List.mem_cons_of_mem c hd)
      rw [List.mapM_cons, pyInt, if_pos hc, ih hrest]
      rfl

/- Every decimal digit is accepted by Python's `isdigit`. -/
theorem isDigit_pyIsdigit (c : Char) (h : c.isDigit = true) : pyIsdigit c = true := by
  simp [pyIsdigit, h]

/- Python's `int` succeeds on a character exactly when it is a decimal
digit. -/
theorem pyInt_isSome_iff (c : Char) : (pyInt c).isSome = true ↔ c.isDigit = true := by
  unfold pyInt
  split <;> simp_all

/- On a string all of whose `isdigit` characters are decimal digits, the
Unicode filter and the decimal filter retain the same characters. -/
theorem filter_pyIsdigit_eq_filter_isDigit (l : List Char)
    (h : ∀ c ∈ l, pyIsdigit c = true → (pyInt c).isSome = true) :
    l.filter pyIsdigit = l.filter Char.isDigit := by
  induction l with
  | nil => rfl
  | cons c rest ih =>
      have hc := h c (List.mem_cons_self c rest)
      have hrest : ∀ d ∈ rest, pyIsdigit d = true → (pyInt d).isSome = true :=
        fun d hd => h d (List.mem_cons_of_mem c hd)
      by_cases hd : c.isDigit = true
      · simp [List.filter_cons, isDigit_pyIsdigit c hd, hd, ih hrest]
      · have hp : pyIsdigit c = false := by
          cases hpy : pyIsdigit c
          · rfl
          · exact absurd ((pyInt_isSome_iff c).mp (hc hpy)) hd
        simp [List.filter_cons, hp, hd, ih hrest]

/- On a string all of whose `isdigit` characters are decimal digits, the
faithful fallible pipeline never raises and agrees with the total model. -/
theorem luhn_check_py_eq_some (s : String)
    (hok : ∀ c ∈ s.data, pyIsdigit c = true → (pyInt c).isSome = true) :
    luhn_check_py s = some (luhn_check s) := by
  have hall : ∀ c ∈ s.data.filter Char.isDigit, c.isDigit :=
    fun c hc => List.of_mem_filter hc
  unfold luhn_check_py luhn_check digitsOf
  rw [filter_pyIsdigit_eq_filter_isDigit _ hok, mapM_pyInt_of_digits _ hall]
  simp only [Option.bind_some, Option.some_bind, Bind.bind]
  split <;> rfl

/- Under the same condition on the card number, the handler with the exception
path kept agrees with the total model of `confirm_payment`. -/
theorem confirm_payment_py_eq_some (uuidHex : String) (p : PaymentConfirmIn)
    (hok : ∀ c ∈ p.card_number.data, pyIsdigit c = true → (pyInt c).isSome = true) :
    confirm_payment_py uuidHex p = some (confirm_payment uuidHex p) := by
  unfold confirm_payment_py confirm_payment
  rw [luhn_check_py_eq_some _ hok]
  simp only [Option.bind_some, Option.some_bind, Bind.bind]
  split <;> rfl

/- In the total model, `confirm_payment` succeeds with a non-empty transaction
id exactly when `luhn_check` accepts the card number, and otherwise fails with
the message "Invalid card number" and no transaction id. -/
theorem confirm_payment_gated_by_luhn (uuidHex : String) (p : PaymentConfirmIn) :
    (luhn_check p.card_number = true →
      (confirm_payment uuidHex p).status = "succeeded" ∧
        ∃ t, (confirm_payment uuidHex p).transaction_id = some t ∧ t ≠ "") ∧
    (luhn_check p.card_number = false →
      (confirm_payment uuidHex p).status = "failed" ∧
        (confirm_payment uuidHex p).message = some "Invalid card number" ∧
        (confirm_payment uuidHex p).transaction_id = none) := by
  constructor
  · intro hl
    unfold confirm_payment
    rw [hl]
    refine ⟨rfl, "txn_" ++ uuidHex.take 12, rfl, fun hE => ?_⟩
    have hdata : ("txn_" ++ uuidHex.take 12).data = ([] : List Char) := by
      rw [hE]
    rw [String.data_append] at hdata
    simp at hdata
  · intro hl
    unfold confirm_payment
    rw [hl]
    exact ⟨rfl, rfl, rfl⟩

/- The two test card numbers consist of decimal digits only. -/
theorem decimalOnly_4242 :
    ∀ c ∈ String.data "4242424242424242", pyIsdigit c = true → (pyInt c).isSome = true := by
  decide

theorem decimalOnly_4241 :
    ∀ c ∈ String.data "4242424242424241", pyIsdigit c = true → (pyInt c).isSome = true := by
  decide

/-- C1 counterexample: on "4242424242424242²" at least 12 digit characters
remain after discarding non-digits and the Luhn sum of the decimal digits is
divisible by 10, yet `luhn_check` raises `ValueError` on `int('²')` instead of
returning true. -/
theorem luhn_check_py_valid_card_with_superscript_raises :
    12 ≤ ((String.data "4242424242424242²").filter pyIsdigit).length ∧
      specLuhnSum ((digitsOf "4242424242424242²").length % 2) 0
        (digitsOf "4242424242424242²") % 10 = 0 ∧
      luhn_check_py "4242424242424242²" ≠ some true := by
  decide

/-- C1 (amended): for every input string in which each character accepted by
Python's `isdigit` is a decimal digit (so every `int(d)` succeeds), if at
least 12 digit characters remain then `luhn_check` returns true iff the
standard Luhn sum is divisible by 10; on other strings it can raise
`ValueError` instead of returning a boolean. -/
theorem luhn_check_py_iff_specLuhnSum (s : String)
    (hok : ∀ c ∈ s.data, pyIsdigit c = true → (pyInt c).isSome = true)
    (hlen : 12 ≤ (s.data.filter pyIsdigit).length) :
    (luhn_check_py s = some true ↔
      specLuhnSum ((digitsOf s).length % 2) 0 (digitsOf s) % 10 = 0) := by
  have hdl : (digitsOf s).length = (s.data.filter pyIsdigit).length := by
    unfold digitsOf
    rw [filter_pyIsdigit_eq_filter_isDigit _ hok, List.length_map]
  rw [luhn_check_py_eq_some s hok, Option.some_inj]
  exact luhn_check_iff_specLuhnSum s (by omega)

/-- C1 witness: the amended claim instantiated at the valid 16-digit test
card. -/
theorem luhn_check_py_iff_specLuhnSum_witness :
    (∀ c ∈ String.data "4242424242424242", pyIsdigit c = true → (pyInt c).isSome = true) ∧
      12 ≤ ((String.data "4242424242424242").filter pyIsdigit).length ∧
      (luhn_check_py "4242424242424242" = some true ↔
        specLuhnSum ((digitsOf "4242424242424242").length % 2) 0
          (digitsOf "4242424242424242") % 10 = 0) :=
  ⟨by decide, by decide,
    luhn_check_py_iff_specLuhnSum "4242424242424242" (by decide) (by decide)⟩

/-- C2 counterexample: "²" contains fewer than 12 digit characters, yet
`luhn_check` raises `ValueError` on `int('²')` instead of returning false. -/
theorem luhn_check_py_short_superscript_raises :
    ((String.data "²").filter pyIsdigit).length < 12 ∧
      luhn_check_py "²" ≠ some false := by
  decide

/-- C2 (amended): for every input string in which each character accepted by
Python's `isdigit` is a decimal digit, fewer than 12 digit characters make
`luhn_check` return false regardless of the checksum; a string with an
isdigit-true non-decimal character such as '²' makes it raise instead. -/
theorem luhn_check_py_short_false (s : String)
    (hok : ∀ c ∈ s.data, pyIsdigit c = true → (pyInt c).isSome = true)
    (hlen : (s.data.filter pyIsdigit).length < 12) :
    luhn_check_py s = some false := by
  have hdl : (digitsOf s).length = (s.data.filter pyIsdigit).length := by
    unfold digitsOf
    rw [filter_pyIsdigit_eq_filter_isDigit _ hok, List.length_map]
  rw [luhn_check_py_eq_some s hok, luhn_check_short_false s (by omega)]

/-- C2 witness: an 11-digit string with Luhn sum divisible by 10 is still
rejected, without raising. -/
theorem luhn_check_py_short_false_witness :
    (∀ c ∈ String.data "00000000000", pyIsdigit c = true → (pyInt c).isSome = true) ∧
      ((String.data "00000000000").filter pyIsdigit).length < 12 ∧
      luhn_check_py "00000000000" = some false :=
  ⟨by decide, by decide, luhn_check_py_short_false "00000000000" (by decide) (by decide)⟩

/-- C3 counterexample: removing all non-decimal-digit characters from "²"
gives "", on which `luhn_check` returns false, while `luhn_check "²"` raises
`ValueError` — the two results differ. -/
theorem luhn_check_py_not_strip_invariant :
    luhn_check_py "²" ≠ luhn_check_py (stripNonDigits "²") := by
  decide

/-- C3 (amended): for every input string in which each character accepted by
Python's `isdigit` is a decimal digit, `luhn_check` is invariant under removal
of the non-digit characters — in particular "4242-4242-4242-4242" and
"4242424242424242" yield identical results — but the invariance fails on
strings such as "²", where stripping removes the character that makes
`luhn_check` raise. -/
theorem luhn_check_py_strip_invariant (s : String)
    (hok : ∀ c ∈ s.data, pyIsdigit c = true → (pyInt c).isSome = true) :
    luhn_check_py s = luhn_check_py (stripNonDigits s) ∧
      luhn_check_py "4242-4242-4242-4242" = luhn_check_py "4242424242424242" := by
  constructor
  · have hok2 : ∀ c ∈ (stripNonDigits s).data,
        pyIsdigit c = true → (pyInt c).isSome = true := by
      intro c hc
      have hc2 : c ∈ s.data.filter Char.isDigit := hc
      exact hok c (List.mem_of_mem_filter hc2)
    rw [luhn_check_py_eq_some s hok, luhn_check_py_eq_some _ hok2,
      luhn_check_strip_invariant.1 s]
  · decide

/-- C3 witness: the amended invariance instantiated at the dashed test
card. -/
theorem luhn_check_py_strip_invariant_witness :
    (∀ c ∈ String.data "4242-4242-4242-4242",
        pyIsdigit c = true → (pyInt c).isSome = true) ∧
      (luhn_check_py "4242-4242-4242-4242" =
          luhn_check_py (stripNonDigits "4242-4242-4242-4242") ∧
        luhn_check_py "4242-4242-4242-4242" = luhn_check_py "4242424242424242") :=
  ⟨by decide, luhn_check_py_strip_invariant "4242-4242-4242-4242" (by decide)⟩

/-- C4 counterexample: `luhn_check "²"` raises `ValueError` — `'²'.isdigit()`
is true, so the character is retained, and `int('²')` then fails — instead of
terminating normally with a boolean. -/
theorem luhn_check_py_superscript_raises : luhn_check_py "²" = none := by
  decide

/-- C4 (amended): `luhn_check` terminates normally and returns a boolean for
every input string in which each character accepted by Python's `isdigit` is a
decimal digit (in particular any string of ASCII characters); on characters
such as '²', accepted by `isdigit` but rejected by `int`, it raises
`ValueError` instead. -/
theorem luhn_check_py_returns_bool (s : String)
    (hok : ∀ c ∈ s.data, pyIsdigit c = true → (pyInt c).isSome = true) :
    ∃ b : Bool, luhn_check_py s = some b ∧ luhn_check s = b :=
  ⟨luhn_check s, luhn_check_py_eq_some s hok, rfl⟩

/-- C4 witness: a mixed ASCII string is processed without raising. -/
theorem luhn_check_py_returns_bool_witness :
    (∀ c ∈ String.data "abc-123", pyIsdigit c = true → (pyInt c).isSome = true) ∧
      ∃ b : Bool, luhn_check_py "abc-123" = some b ∧ luhn_check "abc-123" = b :=
  ⟨by decide, luhn_check_py_returns_bool "abc-123" (by decide)⟩

/-- C5 counterexample: a payload whose card number is "²" makes
`confirm_payment` propagate the `ValueError` raised inside `luhn_check`,
returning neither the succeeded nor the failed `PaymentResult`. -/
theorem confirm_payment_py_superscript_raises :
    confirm_payment_py "0123456789abcdef" samplePayloadSuperscript = none := by
  rfl

/-- C5 (amended): for every payload whose card number has each isdigit
character a decimal digit, `confirm_payment` returns status "succeeded" with a
non-empty transaction id iff `luhn_check` accepts the card number, and
otherwise status "failed" with message "Invalid card number" and no
transaction id; for other card numbers (e.g. "²") the handler propagates a
`ValueError` and returns no `PaymentResult`. -/
theorem confirm_payment_py_gated_by_luhn (uuidHex : String) (p : PaymentConfirmIn)
    (hok : ∀ c ∈ p.card_number.data, pyIsdigit c = true → (pyInt c).isSome = true) :
    (luhn_check p.card_number = true →
      ∃ r, confirm_payment_py uuidHex p = some r ∧ r.status = "succeeded" ∧
        ∃ t, r.transaction_id = some t ∧ t ≠ "") ∧
    (luhn_check p.card_number = false →
      ∃ r, confirm_payment_py uuidHex p = some r ∧ r.status = "failed" ∧
        r.message = some "Invalid card number" ∧ r.transaction_id = none) := by
  have hb := confirm_payment_py_eq_some uuidHex p hok
  have hg := confirm_payment_gated_by_luhn uuidHex p
  exact ⟨fun hl => ⟨confirm_payment uuidHex p, hb, (hg.1 hl).1, (hg.1 hl).2⟩,
    fun hl => ⟨confirm_payment uuidHex p, hb, (hg.2 hl).1, (hg.2 hl).2.1,
      (hg.2 hl).2.2⟩⟩

/-- C5 witness: the gate instantiated on a valid and on an invalid all-decimal
payload. -/
theorem confirm_payment_py_gated_by_luhn_witness :
    (∃ r, confirm_payment_py "0123456789abcdef" samplePayloadValid = some r ∧
        r.status = "succeeded" ∧ ∃ t, r.transaction_id = some t ∧ t ≠ "") ∧
      ∃ r, confirm_payment_py "0123456789abcdef" samplePayloadInvalid = some r ∧
        r.status = "failed" ∧ r.message = some "Invalid card number" ∧
        r.transaction_id = none :=
  ⟨(confirm_payment_py_gated_by_luhn "0123456789abcdef" samplePayloadValid
      decimalOnly_4242).1 luhn_valid_4242,
    (confirm_payment_py_gated_by_luhn "0123456789abcdef" samplePayloadInvalid
      decimalOnly_4241).2 luhn_invalid_4241⟩

/-- C6: payloads agreeing on the card number receive the same status and the
same message from `confirm_payment`, whatever their client secret, expiry
fields, CVC — or even the generated uuid — may be. -/
theorem confirm_payment_only_card_matters
    (u₁ u₂ : String) (p₁ p₂ : PaymentConfirmIn)
    (h : p₁.card_number = p₂.card_number) :
    (confirm_payment u₁ p₁).status = (confirm_payment u₂ p₂).status ∧
      (confirm_payment u₁ p₁).message = (confirm_payment u₂ p₂).message := by
  unfold confirm_payment
  rw [h]
  cases hb : luhn_check p₂.card_number <;> simp

/-- C6 witness: two payloads sharing a card number but differing in every
other field get the same status and message. -/
theorem confirm_payment_only_card_matters_witness :
    (confirm_payment "aa" samplePayloadValid).status =
        (confirm_payment "bb" samplePayloadValidAlt).status ∧
      (confirm_payment "aa" samplePayloadValid).message =
        (confirm_payment "bb" samplePayloadValidAlt).message :=
  confirm_payment_only_card_matters "aa" "bb" samplePayloadValid samplePayloadValidAlt rfl

/-- C10: for every station capacity `c ≥ 1` and wall-clock second `s ≤ 59`,
the computed availability lies between 0 and `c`, and the `max 0` guard never
clamps: `occupied = s % (c + 1)` already lies in `0..c`. -/
theorem stationAvailable_bounds (c : Int) (s : Nat) (hc : 1 ≤ c) (_hs : s ≤ 59) :
    (0 ≤ stationAvailable c s ∧ stationAvailable c s ≤ c) ∧
      stationAvailable c s = c - (s : Int) % (c + 1) := by
  have h₀ : 0 ≤ (s : Int) % (c + 1) := Int.emod_nonneg _ (by omega)
  have h₁ : (s : Int) % (c + 1) < c + 1 := Int.emod_lt_of_pos _ (by omega)
  have hval : stationAvailable c s = c - (s : Int) % (c + 1) := by
    simp only [stationAvailable]
    exact max_eq_right (by omega)
  refine ⟨⟨?_, ?_⟩, hval⟩ <;> rw [hval] <;> omega

/-- C10 witness: the bounds at capacity 4 and second 13, where
`occupied = 13 % 5 = 3` and the availability is 1. -/
theorem stationAvailable_bounds_witness :
    (0 ≤ stationAvailable 4 13 ∧ stationAvailable 4 13 ≤ 4) ∧
      stationAvailable 4 13 = 4 - (13 : Int) % (4 + 1) :=
  stationAvailable_bounds 4 13 (by decide) (by decide)

/-- C7: `luhn_check` accepts the valid test card "4242424242424242" and
rejects its single-digit alteration "4242424242424241". -/
theorem luhn_check_test_cards :
    luhn_check "4242424242424242" = true ∧ luhn_check "4242424242424241" = false :=
  ⟨luhn_valid_4242, luhn_invalid_4241⟩

/-- C8: `luhn_check` accepts the string of exactly 12 zero digits: the length
check passes at the minimum of 12 and the checksum is 0, divisible by 10. -/
theorem luhn_check_twelve_zeros : luhn_check "000000000000" = true := by
  decide

/-- C9: `luhn_check` is deterministic — two invocations on the same string
yield the same boolean result; as a pure function it has no hidden state. -/
theorem luhn_check_deterministic : ∀ s : String, luhn_check s = luhn_check s :=
  fun _ => rfl
